import Mathlib

/-!
Shallow embedding of the metrics-computation and campaign-attribution core of
the franchise analytics dashboard (src/franchisee_analytics_app.py), together
with theorems settling the specification claims about it.

Dates are modelled as day numbers (days since 1970-01-01, the same unit used
by pandas Timestamp day arithmetic); money values are rational numbers.
-/

namespace FranchiseAnalytics

/-- Day number of a calendar date (days since 1970-01-01), for year at least 1.
Standard civil-calendar conversion, used to express concrete dates from the
scenarios as the day numbers the embedding computes with. -/
def daysFromCivil (y m d : Nat) : Int :=
  let y2 := if m ≤ 2 then y - 1 else y
  let era := y2 / 400
  let yoe := y2 - era * 400
  let doy := (153 * (if 2 < m then m - 3 else m + 9) + 2) / 5 + d - 1
  let doe := yoe * 365 + yoe / 4 - yoe / 100 + doy
  (era * 146097 + doe : Int) - 719468

/-- One transaction row, after date parsing: the columns of the transaction
table that the analytics functions read (Date, Item, Category, Amount Inc Tax,
Sold To, Source_File). -/
structure Txn where
  date : Int
  item : String
  category : String
  amount : ℚ
  customer : String
  sourceFile : String
deriving Repr, DecidableEq

/-- A transaction table: its rows plus whether the Sold To column is present
(the source checks column presence with the test: Sold To in df.columns). -/
structure TxnTable where
  rows : List Txn
  hasSoldTo : Bool
deriving Repr, DecidableEq

/-- Sum of the Amount Inc Tax column over a list of rows. -/
def sumAmt (rows : List Txn) : ℚ := (rows.map (·.amount)).sum

/-- Number of distinct values, mirroring pandas Series.nunique. -/
def nunique (l : List String) : Nat := l.eraseDups.length

/-- Result record of calculate_business_metrics. -/
structure BusinessMetrics where
  total_revenue : ℚ
  total_transactions : Nat
  unique_customers : Nat
  membership_revenue : ℚ
  payg_revenue : ℚ
  membership_pct : ℚ
  payg_pct : ℚ
  avg_transaction : ℚ
  revenue_per_customer : ℚ
deriving Repr, DecidableEq

/-- Embedding of calculate_business_metrics (lines 148-172 of the source):
revenue, transaction and customer totals, category revenues for MEMBERSHIP and
CREDIT_PACK, percentages guarded by total_revenue > 0, and per-transaction /
per-customer averages guarded by positive denominators. -/
def calculate_business_metrics (df : TxnTable) : BusinessMetrics :=
  let total_revenue := sumAmt df.rows
  let total_transactions := df.rows.length
  let unique_customers :=
    if df.hasSoldTo then nunique (df.rows.map (·.customer)) else 0
  let membership_revenue := sumAmt (df.rows.filter (fun t => t.category = "MEMBERSHIP"))
  let payg_revenue := sumAmt (df.rows.filter (fun t => t.category = "CREDIT_PACK"))
  let membership_pct := if 0 < total_revenue then membership_revenue / total_revenue * 100 else 0
  let payg_pct := if 0 < total_revenue then payg_revenue / total_revenue * 100 else 0
  { total_revenue := total_revenue
    total_transactions := total_transactions
    unique_customers := unique_customers
    membership_revenue := membership_revenue
    payg_revenue := payg_revenue
    membership_pct := membership_pct
    payg_pct := payg_pct
    avg_transaction :=
      if 0 < total_transactions then total_revenue / total_transactions else 0
    revenue_per_customer :=
      if 0 < unique_customers then total_revenue / unique_customers else 0 }

/-- A marketing table as calculate_marketing_metrics sees it: the values of the
resolved Amount column (one entry per row) and whether that column exists. -/
structure MarketingTable where
  amounts : List ℚ
  hasAmount : Bool
deriving Repr, DecidableEq

/-- Result record of calculate_marketing_metrics. -/
structure MarketingMetrics where
  total_spend : ℚ
  roi : ℚ
  cost_per_revenue : ℚ
  profit_after_ads : ℚ
deriving Repr, DecidableEq

/-- Embedding of calculate_marketing_metrics (lines 174-201 of the source):
an empty table, or one without an Amount column, yields the zero result whose
profit_after_ads is total_revenue; otherwise ROI and cost-per-revenue with
guarded divisions and profit after ads. The Python try/except around total
arithmetic cannot fire on these operations, so the embedding is total. -/
def calculate_marketing_metrics (m : MarketingTable) (total_revenue : ℚ) : MarketingMetrics :=
  if m.amounts = [] ∨ m.hasAmount = false then
    { total_spend := 0, roi := 0, cost_per_revenue := 0, profit_after_ads := total_revenue }
  else
    let total_spend := m.amounts.sum
    { total_spend := total_spend
      roi := if 0 < total_spend then total_revenue / total_spend else 0
      cost_per_revenue := if 0 < total_revenue then total_spend / total_revenue else 0
      profit_after_ads := total_revenue - total_spend }

/-- Start of the comparison window in analyze_promotion_performance (line 338):
a fixed 30 days before the promotion start. -/
def comparison_start (promotion_start : Int) : Int := promotion_start - 30

/-- End of the comparison window (line 339): the comparison start plus the
treatment window duration in days. -/
def comparison_end (promotion_start promotion_end : Int) : Int :=
  comparison_start promotion_start + (promotion_end - promotion_start)

/-- The treatment set: rows with date inside the promotion window, inclusive
on both ends (lines 303-306). -/
def promotionData (df : TxnTable) (promotion_start promotion_end : Int) : List Txn :=
  df.rows.filter (fun t => decide (promotion_start ≤ t.date ∧ t.date ≤ promotion_end))

/-- The comparison set: rows with date inside the 30-day-earlier window of the
same duration, inclusive on both ends (lines 341-344). -/
def comparisonData (df : TxnTable) (promotion_start promotion_end : Int) : List Txn :=
  df.rows.filter (fun t =>
    decide (comparison_start promotion_start ≤ t.date ∧
            t.date ≤ comparison_end promotion_start promotion_end))

/-- Scalar results of analyze_promotion_performance. -/
structure PromoResult where
  promotion_revenue : ℚ
  promotion_transactions : Nat
  promotion_customers : Nat
  comparison_revenue : ℚ
  comparison_transactions : Nat
  comparison_customers : Nat
  revenue_lift : ℚ
  transaction_lift : ℚ
  customer_lift : ℚ
  roi : ℚ
  incremental_revenue : ℚ
  incremental_roi : ℚ
  marketing_spend : ℚ
deriving Repr, DecidableEq

/-- Embedding of the scalar metrics of analyze_promotion_performance
(lines 299-376 of the source): treatment metrics over the promotion window,
comparison metrics over the 30-day-earlier same-duration window, lift
percentages with zero-baseline guards, ROI and incremental ROI with zero-spend
guards. An empty treatment set returns none, mirroring the early return of an
empty dict. The per-product breakdown table is a side output no claim touches
and is not part of this record. -/
def analyze_promotion_performance (df : TxnTable)
    (promotion_start promotion_end : Int) (marketing_spend : ℚ) : Option PromoResult :=
  let promotion_data := promotionData df promotion_start promotion_end
  if promotion_data.length = 0 then none
  else
    let promotion_revenue := sumAmt promotion_data
    let promotion_transactions := promotion_data.length
    let promotion_customers :=
      if df.hasSoldTo then nunique (promotion_data.map (·.customer)) else 0
    let comparison_data := comparisonData df promotion_start promotion_end
    let comparison_revenue := if 0 < comparison_data.length then sumAmt comparison_data else 0
    let comparison_transactions := comparison_data.length
    let comparison_customers :=
      if 0 < comparison_data.length ∧ df.hasSoldTo then
        nunique (comparison_data.map (·.customer))
      else 0
    let revenue_lift :=
      if 0 < comparison_revenue then
        (promotion_revenue - comparison_revenue) / comparison_revenue * 100
      else 0
    let transaction_lift :=
      if 0 < comparison_transactions then
        ((promotion_transactions : ℚ) - comparison_transactions) / comparison_transactions * 100
      else 0
    let customer_lift :=
      if 0 < comparison_customers then
        ((promotion_customers : ℚ) - comparison_customers) / comparison_customers * 100
      else 0
    let roi := if 0 < marketing_spend then promotion_revenue / marketing_spend else 0
    let incremental_revenue := promotion_revenue - comparison_revenue
    let incremental_roi :=
      if 0 < marketing_spend then incremental_revenue / marketing_spend else 0
    some
      { promotion_revenue := promotion_revenue
        promotion_transactions := promotion_transactions
        promotion_customers := promotion_customers
        comparison_revenue := comparison_revenue
        comparison_transactions := comparison_transactions
        comparison_customers := comparison_customers
        revenue_lift := revenue_lift
        transaction_lift := transaction_lift
        customer_lift := customer_lift
        roi := roi
        incremental_revenue := incremental_revenue
        incremental_roi := incremental_roi
        marketing_spend := marketing_spend }

/-- The two transactions of the attribution scenario in the specification:
amount 100 on 2025-07-05 and amount 50 on 2025-06-05. -/
def c1Table : TxnTable :=
  { rows :=
      [ { date := daysFromCivil 2025 7 5, item := "Pass", category := "CREDIT_PACK",
          amount := 100, customer := "a", sourceFile := "july.csv" },
        { date := daysFromCivil 2025 6 5, item := "Pass", category := "CREDIT_PACK",
          amount := 50, customer := "b", sourceFile := "june.csv" } ],
    hasSoldTo := true }

/-- C1: on the scenario transactions with campaign window 2025-07-01 through
2025-07-10 and spend 50, analyze_promotion_performance gives
promotion_revenue 100, comparison_revenue 50, revenue_lift 100, roi 2,
incremental_revenue 50 and incremental_roi 1, and the comparison window is
2025-06-01 through 2025-06-10, the same-length window whose start is exactly
30 days before the treatment start. -/
theorem attribution_scenario_c1 :
    comparison_start (daysFromCivil 2025 7 1) = daysFromCivil 2025 6 1 ∧
    comparison_end (daysFromCivil 2025 7 1) (daysFromCivil 2025 7 10) =
      daysFromCivil 2025 6 10 ∧
    (comparison_end (daysFromCivil 2025 7 1) (daysFromCivil 2025 7 10) -
        comparison_start (daysFromCivil 2025 7 1) =
      daysFromCivil 2025 7 10 - daysFromCivil 2025 7 1) ∧
    ((analyze_promotion_performance c1Table (daysFromCivil 2025 7 1)
        (daysFromCivil 2025 7 10) 50).map
      (fun r => (r.promotion_revenue, r.comparison_revenue, r.revenue_lift,
                 r.roi, r.incremental_revenue, r.incremental_roi))) =
      some (100, 50, 100, 2, 50, 1) := by
  refine ⟨by decide, by decide, by decide, ?_⟩
  norm_num [analyze_promotion_performance, promotionData, comparisonData, comparison_start,
    comparison_end, c1Table, sumAmt, nunique, daysFromCivil, List.filter]

/-- C5: for every total_revenue, calculate_marketing_metrics on an empty
marketing table, or on one where no spend column was resolved, returns the
defined zero result: total_spend, roi and cost_per_revenue all 0 and
profit_after_ads exactly total_revenue. The embedding is a total function,
so no numeric edge case can raise. -/
theorem marketing_metrics_empty_c5 (total_revenue : ℚ) (m : MarketingTable)
    (h : m.amounts = [] ∨ m.hasAmount = false) :
    calculate_marketing_metrics m total_revenue =
      { total_spend := 0, roi := 0, cost_per_revenue := 0,
        profit_after_ads := total_revenue } := by
  unfold calculate_marketing_metrics
  rw [if_pos h]

theorem marketing_metrics_empty_c5_witness :
    calculate_marketing_metrics { amounts := [], hasAmount := true } 7 =
      { total_spend := 0, roi := 0, cost_per_revenue := 0, profit_after_ads := 7 } :=
  marketing_metrics_empty_c5 7 { amounts := [], hasAmount := true } (Or.inl rfl)

/-- C6: whenever total_revenue of a transaction table is 0,
calculate_business_metrics reports avg_transaction, revenue_per_customer,
membership_pct and payg_pct all equal to 0; the function is total, so no
division-by-zero exception can occur. -/
theorem business_metrics_zero_revenue_c6 (df : TxnTable)
    (h : (calculate_business_metrics df).total_revenue = 0) :
    (calculate_business_metrics df).avg_transaction = 0 ∧
    (calculate_business_metrics df).revenue_per_customer = 0 ∧
    (calculate_business_metrics df).membership_pct = 0 ∧
    (calculate_business_metrics df).payg_pct = 0 := by
  have hS : sumAmt df.rows = 0 := h
  refine ⟨?_, ?_, ?_, ?_⟩ <;> simp [calculate_business_metrics, hS]

def c6Table : TxnTable :=
  { rows := [{ date := 0, item := "Pass", category := "MEMBERSHIP", amount := 0,
               customer := "a", sourceFile := "f.csv" }],
    hasSoldTo := true }

theorem business_metrics_zero_revenue_c6_witness :
    (calculate_business_metrics c6Table).avg_transaction = 0 ∧
    (calculate_business_metrics c6Table).revenue_per_customer = 0 ∧
    (calculate_business_metrics c6Table).membership_pct = 0 ∧
    (calculate_business_metrics c6Table).payg_pct = 0 :=
  business_metrics_zero_revenue_c6 c6Table
    (by norm_num [calculate_business_metrics, c6Table, sumAmt])

theorem sumAmt_cons (t : Txn) (l : List Txn) :
    sumAmt (t :: l) = t.amount + sumAmt l := by
  simp [sumAmt]

theorem sumAmt_nonneg (l : List Txn) (h : ∀ t ∈ l, 0 ≤ t.amount) :
    0 ≤ sumAmt l := by
  induction l with
  | nil => simp [sumAmt]
  | cons t l ih =>
    rw [sumAmt_cons]
    have h1 := h t (by simp)
    have h2 := ih (fun x hx => h x (by simp [hx]))
    linarith

theorem sumAmt_filter_pair_le (p q : Txn → Bool) (l : List Txn)
    (hnn : ∀ t ∈ l, 0 ≤ t.amount) (hdisj : ∀ t, ¬(p t = true ∧ q t = true)) :
    sumAmt (l.filter p) + sumAmt (l.filter q) ≤ sumAmt l := by
  induction l with
  | nil => simp [sumAmt]
  | cons t l ih =>
    have ht := hnn t (by simp)
    have ih2 := ih (fun x hx => hnn x (by simp [hx]))
    rw [sumAmt_cons]
    cases hp : p t <;> cases hq : q t <;>
      simp only [List.filter_cons, hp, hq, if_pos, if_neg, Bool.false_eq_true,
        ite_true, ite_false, sumAmt_cons]
    · linarith
    · linarith
    · linarith
    · exact absurd ⟨hp, hq⟩ (hdisj t)

theorem sumAmt_filter_le (p : Txn → Bool) (l : List Txn)
    (hnn : ∀ t ∈ l, 0 ≤ t.amount) : sumAmt (l.filter p) ≤ sumAmt l := by
  have h := sumAmt_filter_pair_le p (fun _ => false) l hnn (by simp)
  simpa [sumAmt] using h

/-- A non-empty table containing a negative amount on which membership_pct
exceeds 100: one MEMBERSHIP row of amount 200 and one other-category row of
amount -100, so total_revenue is 100 and membership_pct is 200. -/
def c7Table : TxnTable :=
  { rows := [{ date := 0, item := "m", category := "MEMBERSHIP", amount := 200,
               customer := "a", sourceFile := "f.csv" },
             { date := 0, item := "o", category := "OTHER", amount := -100,
               customer := "b", sourceFile := "f.csv" }],
    hasSoldTo := true }

/-- C7 counterexample: a non-empty transaction table on which membership_pct
computed by calculate_business_metrics is 200, outside [0, 100]; amounts are
not constrained to be nonnegative, so the claim fails as stated over all
non-empty tables. -/
theorem pct_bounds_counterexample_c7 :
    c7Table.rows ≠ [] ∧ 100 < (calculate_business_metrics c7Table).membership_pct := by
  constructor
  · decide
  · simp [calculate_business_metrics, c7Table, sumAmt]
    norm_num

/-- C7 amended: for every non-empty transaction table all of whose amounts are
nonnegative, membership_pct and payg_pct lie in [0, 100] and their sum is at
most 100. -/
theorem pct_bounds_amended_c7 (df : TxnTable) (_hne : df.rows ≠ [])
    (hnn : ∀ t ∈ df.rows, 0 ≤ t.amount) :
    0 ≤ (calculate_business_metrics df).membership_pct ∧
    (calculate_business_metrics df).membership_pct ≤ 100 ∧
    0 ≤ (calculate_business_metrics df).payg_pct ∧
    (calculate_business_metrics df).payg_pct ≤ 100 ∧
    (calculate_business_metrics df).membership_pct +
      (calculate_business_metrics df).payg_pct ≤ 100 := by
  have hMnn : 0 ≤ sumAmt (df.rows.filter (fun t => t.category = "MEMBERSHIP")) :=
    sumAmt_nonneg _ (fun t ht => hnn t (List.mem_of_mem_filter ht))
  have hPnn : 0 ≤ sumAmt (df.rows.filter (fun t => t.category = "CREDIT_PACK")) :=
    sumAmt_nonneg _ (fun t ht => hnn t (List.mem_of_mem_filter ht))
  have hMP : sumAmt (df.rows.filter (fun t => t.category = "MEMBERSHIP")) +
      sumAmt (df.rows.filter (fun t => t.category = "CREDIT_PACK")) ≤ sumAmt df.rows := by
    refine sumAmt_filter_pair_le _ _ _ hnn ?_
    intro t ht
    simp only [decide_eq_true_eq] at ht
    have : "MEMBERSHIP" = "CREDIT_PACK" := ht.1 ▸ ht.2
    exact absurd this (by decide)
  simp only [calculate_business_metrics]
  by_cases hS : 0 < sumAmt df.rows
  · set S := sumAmt df.rows with hSdef
    set M := sumAmt (df.rows.filter (fun t => t.category = "MEMBERSHIP")) with hMdef
    set P := sumAmt (df.rows.filter (fun t => t.category = "CREDIT_PACK")) with hPdef
    rw [if_pos hS, if_pos hS]
    have hMle : M ≤ S := by linarith
    have hPle : P ≤ S := by linarith
    have hm1 : M / S ≤ 1 := (div_le_one hS).mpr hMle
    have hp1 : P / S ≤ 1 := (div_le_one hS).mpr hPle
    have hmp1 : (M + P) / S ≤ 1 := (div_le_one hS).mpr hMP
    have hadd : M / S + P / S = (M + P) / S := div_add_div_same M P S
    have hm0 : 0 ≤ M / S := div_nonneg hMnn hS.le
    have hp0 : 0 ≤ P / S := div_nonneg hPnn hS.le
    refine ⟨by linarith, by linarith, by linarith, by linarith, by linarith⟩
  · rw [if_neg hS, if_neg hS]
    norm_num

def c7GoodTable : TxnTable :=
  { rows := [{ date := 0, item := "m", category := "MEMBERSHIP", amount := 60,
               customer := "a", sourceFile := "f.csv" },
             { date := 0, item := "p", category := "CREDIT_PACK", amount := 40,
               customer := "b", sourceFile := "f.csv" }],
    hasSoldTo := true }

theorem pct_bounds_amended_c7_witness :
    0 ≤ (calculate_business_metrics c7GoodTable).membership_pct ∧
    (calculate_business_metrics c7GoodTable).membership_pct ≤ 100 ∧
    0 ≤ (calculate_business_metrics c7GoodTable).payg_pct ∧
    (calculate_business_metrics c7GoodTable).payg_pct ≤ 100 ∧
    (calculate_business_metrics c7GoodTable).membership_pct +
      (calculate_business_metrics c7GoodTable).payg_pct ≤ 100 :=
  pct_bounds_amended_c7 c7GoodTable (by decide) (by decide)

/-- Per-file status record appended by load_and_combine_files. -/
structure FileInfo where
  filename : String
  rows : Nat
  type : String
  status : String
deriving Repr, DecidableEq

/-- One uploaded file as the loader sees it: its name and the outcome of
pd.read_csv on it, either the parsed rows or a parse-failure message. -/
structure SrcFile where
  name : String
  parsed : Except String (List Txn)
deriving Repr

/-- Overwrites the Source_File column value of a row with the file name, as
the loader does before concatenating. -/
def tagSource (n : String) (t : Txn) : Txn := { t with sourceFile := n }

/-- Embedding of load_and_combine_files (lines 75-99 of the source): walk the
uploaded files in order; a file that parses is tagged with its name and
appended to the combined table with a Success status; a file that fails to
parse contributes no rows and an Error status; either way exactly one status
record per file. -/
def load_and_combine_files : List SrcFile → String → List Txn × List FileInfo
  | [], _ => ([], [])
  | f :: rest, file_type =>
    let acc := load_and_combine_files rest file_type
    match f.parsed with
    | .ok df =>
      (df.map (tagSource f.name) ++ acc.1,
       { filename := f.name, rows := df.length, type := file_type,
         status := "Success" } :: acc.2)
    | .error e =>
      (acc.1,
       { filename := f.name, rows := 0, type := file_type,
         status := "Error: " ++ e } :: acc.2)

/-- The status record load_and_combine_files produces for one file. -/
def statusOf (file_type : String) (f : SrcFile) : FileInfo :=
  match f.parsed with
  | .ok df => { filename := f.name, rows := df.length, type := file_type, status := "Success" }
  | .error e => { filename := f.name, rows := 0, type := file_type, status := "Error: " ++ e }

/-- The tagged rows a file contributes to the combined table: its parsed rows
with Source_File set to the file name, or nothing on parse failure. -/
def okRows (f : SrcFile) : List Txn :=
  match f.parsed with
  | .ok df => df.map (tagSource f.name)
  | .error _ => []

theorem load_and_combine_fst (files : List SrcFile) (file_type : String) :
    (load_and_combine_files files file_type).1 = (files.map okRows).flatten := by
  induction files with
  | nil => rfl
  | cons f rest ih =>
    cases h : f.parsed <;>
      simp [load_and_combine_files, okRows, h, ih]

theorem load_and_combine_snd (files : List SrcFile) (file_type : String) :
    (load_and_combine_files files file_type).2 = files.map (statusOf file_type) := by
  induction files with
  | nil => rfl
  | cons f rest ih =>
    cases h : f.parsed <;>
      simp [load_and_combine_files, statusOf, h, ih]

/-- C8: load_and_combine_files has partial-failure semantics: the status list
has exactly one record per input file, each carrying that file's name and a
Success or parse-Error status; the combined table is the concatenation of the
tagged rows of exactly the successfully parsed files, so one failing file
never aborts the batch; and every combined row's Source_File names the
successfully parsed file it came from. -/
theorem load_partial_failure_c8 (files : List SrcFile) (file_type : String) :
    ((load_and_combine_files files file_type).2.length = files.length) ∧
    ((load_and_combine_files files file_type).2 = files.map (statusOf file_type)) ∧
    ((load_and_combine_files files file_type).1 = (files.map okRows).flatten) ∧
    (∀ t ∈ (load_and_combine_files files file_type).1,
      ∃ f ∈ files, (∃ rows, f.parsed = .ok rows) ∧ t.sourceFile = f.name) := by
  refine ⟨?_, load_and_combine_snd files file_type, load_and_combine_fst files file_type, ?_⟩
  · rw [load_and_combine_snd]
    simp
  · intro t ht
    rw [load_and_combine_fst] at ht
    simp only [List.mem_flatten, List.mem_map] at ht
    obtain ⟨l, ⟨f, hf, hl⟩, htl⟩ := ht
    subst hl
    refine ⟨f, hf, ?_⟩
    unfold okRows at htl
    cases h : f.parsed with
    | ok rows =>
      rw [h] at htl
      simp only [List.mem_map] at htl
      obtain ⟨u, _, hu⟩ := htl
      exact ⟨⟨rows, rfl⟩, by rw [← hu]; rfl⟩
    | error e =>
      rw [h] at htl
      simp at htl

def c8Row : Txn :=
  { date := 0, item := "Pass", category := "MEMBERSHIP",
    amount := 10, customer := "x", sourceFile := "" }

def c8GoodFile : SrcFile :=
  { name := "a.csv", parsed := .ok [c8Row] }

def c8BadFile : SrcFile :=
  { name := "b.csv", parsed := .error "ParserError" }

theorem load_partial_failure_c8_witness :
    ((load_and_combine_files [c8BadFile, c8GoodFile] "transaction").2.length = 2) ∧
    (∃ f ∈ [c8BadFile, c8GoodFile], (∃ rows, f.parsed = Except.ok rows) ∧
      (tagSource "a.csv" c8Row).sourceFile = f.name) := by
  refine ⟨(load_partial_failure_c8 [c8BadFile, c8GoodFile] "transaction").1, ?_⟩
  refine (load_partial_failure_c8 [c8BadFile, c8GoodFile] "transaction").2.2.2 _ ?_
  simp [load_and_combine_files, c8BadFile, c8GoodFile, tagSource]

/-- C9: concatenating the same file list twice and computing business metrics
doubles total_transactions and total_revenue relative to loading it once:
accumulation with no deduplication. -/
theorem load_twice_doubles_c9 (files : List SrcFile) (file_type : String) (b : Bool) :
    (calculate_business_metrics
        ⟨(load_and_combine_files (files ++ files) file_type).1, b⟩).total_transactions =
      2 * (calculate_business_metrics
        ⟨(load_and_combine_files files file_type).1, b⟩).total_transactions ∧
    (calculate_business_metrics
        ⟨(load_and_combine_files (files ++ files) file_type).1, b⟩).total_revenue =
      2 * (calculate_business_metrics
        ⟨(load_and_combine_files files file_type).1, b⟩).total_revenue := by
  have happ : (load_and_combine_files (files ++ files) file_type).1 =
      (load_and_combine_files files file_type).1 ++
        (load_and_combine_files files file_type).1 := by
    rw [load_and_combine_fst, load_and_combine_fst, List.map_append, List.flatten_append]
  constructor
  · simp [calculate_business_metrics, happ, two_mul]
  · simp [calculate_business_metrics, happ, sumAmt, two_mul]

/-- Rounds a value to two decimal places, as the DataFrame round(2) calls in
the customer aggregation do. -/
def round2 (q : ℚ) : ℚ := (round (q * 100) : ℚ) / 100

/-- Embedding of the Customer_Segment assignment (lines 561-563): pd.cut with
bins [0, 25, 75, 150, inf] and labels Low Value, Medium Value, High Value,
VIP. pandas default binning is right-closed, so a value is labelled by the
half-open interval (lo, hi] containing it, and a value at or below 0 falls in
no bin and gets no label. -/
def customerSegment (ltv : ℚ) : Option String :=
  if 0 < ltv ∧ ltv ≤ 25 then some "Low Value"
  else if 25 < ltv ∧ ltv ≤ 75 then some "Medium Value"
  else if 75 < ltv ∧ ltv ≤ 150 then some "High Value"
  else if 150 < ltv then some "VIP"
  else none

/-- Lifetime value of one customer: the sum of that customer's transaction
amounts, rounded to two decimals by the groupby aggregation (lines 547-553). -/
def ltvOf (rows : List Txn) (c : String) : ℚ :=
  round2 (sumAmt (rows.filter (fun t => t.customer = c)))

/-- The Customer_Segment entry of one customer of a transaction table. -/
def segmentOf (rows : List Txn) (c : String) : Option String :=
  customerSegment (ltvOf rows c)

def c2Rows : List Txn :=
  [{ date := 0, item := "Pack", category := "CREDIT_PACK", amount := 150,
     customer := "alice", sourceFile := "f.csv" }]

/-- C2 counterexample: a customer whose lifetime value is exactly 150 is
assigned the segment High Value, not VIP: the pd.cut bins are right-closed,
so the boundary belongs to the lower tier, contradicting the claimed
inclusive lower bounds. -/
theorem segment_ltv150_counterexample_c2 :
    segmentOf c2Rows "alice" = some "High Value" ∧
    segmentOf c2Rows "alice" ≠ some "VIP" := by
  have h : ltvOf c2Rows "alice" = 150 := by
    simp [ltvOf, c2Rows, sumAmt, round2]
    norm_num [round_eq]
  constructor
  · norm_num [segmentOf, h, customerSegment]
  · norm_num [segmentOf, h, customerSegment]
    decide

/-- C2 amended: segment assignment uses exclusive lower and inclusive upper
bounds at the thresholds: a lifetime value in (0, 25] is Low Value, in
(25, 75] is Medium Value, in (75, 150] is High Value (so both 149.99 and
exactly 150 are High Value), strictly above 150 is VIP, and a value at or
below 0 is assigned no segment. -/
theorem segment_thresholds_amended_c2 (x : ℚ) :
    (x ≤ 0 → customerSegment x = none) ∧
    (0 < x → x ≤ 25 → customerSegment x = some "Low Value") ∧
    (25 < x → x ≤ 75 → customerSegment x = some "Medium Value") ∧
    (75 < x → x ≤ 150 → customerSegment x = some "High Value") ∧
    (150 < x → customerSegment x = some "VIP") := by
  unfold customerSegment
  refine ⟨fun h => ?_, fun h1 h2 => ?_, fun h1 h2 => ?_, fun h1 h2 => ?_, fun h1 => ?_⟩
  · rw [if_neg (by rintro ⟨hx, _⟩; linarith), if_neg (by rintro ⟨hx, _⟩; linarith),
      if_neg (by rintro ⟨hx, _⟩; linarith), if_neg (by intro hx; linarith)]
  · rw [if_pos ⟨h1, h2⟩]
  · rw [if_neg (by rintro ⟨_, hx⟩; linarith), if_pos ⟨h1, h2⟩]
  · rw [if_neg (by rintro ⟨_, hx⟩; linarith), if_neg (by rintro ⟨_, hx⟩; linarith),
      if_pos ⟨h1, h2⟩]
  · rw [if_neg (by rintro ⟨_, hx⟩; linarith), if_neg (by rintro ⟨_, hx⟩; linarith),
      if_neg (by rintro ⟨_, hx⟩; linarith), if_pos h1]

theorem segment_thresholds_amended_c2_witness :
    customerSegment (14999 / 100) = some "High Value" ∧
    customerSegment 150 = some "High Value" ∧
    customerSegment (15001 / 100) = some "VIP" ∧
    customerSegment 25 = some "Low Value" ∧
    customerSegment 0 = none :=
  ⟨(segment_thresholds_amended_c2 (14999 / 100)).2.2.2.1 (by norm_num) (by norm_num),
   (segment_thresholds_amended_c2 150).2.2.2.1 (by norm_num) (by norm_num),
   (segment_thresholds_amended_c2 (15001 / 100)).2.2.2.2 (by norm_num),
   (segment_thresholds_amended_c2 25).2.1 (by norm_num) (by norm_num),
   (segment_thresholds_amended_c2 0).1 (by norm_num)⟩

/-- A raw transaction row before date conversion: rawDate holds the result of
reading the Date cell as a day-first calendar date, none when the cell does
not parse as a date. -/
structure RawTxn where
  rawDate : Option Int
  item : String
  category : String
  amount : ℚ
  customer : String
  sourceFile : String
deriving Repr, DecidableEq

/-- A raw row with its parsed date filled into the Date column. -/
def withDate (r : RawTxn) (d : Int) : Txn :=
  { date := d, item := r.item, category := r.category, amount := r.amount,
    customer := r.customer, sourceFile := r.sourceFile }

/-- Embedding of the module-level transaction date conversion (line 400):
pd.to_datetime on the Date column with dayfirst=True and the default
errors=raise policy. The conversion succeeds with every row retained when all
dates parse, and raises (here: returns an error) as soon as any date fails to
parse; it never drops a row. -/
def to_datetime_dayfirst : List RawTxn → Except String (List Txn)
  | [] => .ok []
  | r :: rs =>
    match r.rawDate with
    | none => .error "Unknown datetime string format"
    | some d =>
      match to_datetime_dayfirst rs with
      | .ok ts => .ok (withDate r d :: ts)
      | .error e => .error e

def c3GoodRaw : RawTxn :=
  { rawDate := some (daysFromCivil 2025 7 5), item := "Pass",
    category := "MEMBERSHIP", amount := 10, customer := "a", sourceFile := "t.csv" }

def c3BadRaw : RawTxn :=
  { rawDate := none, item := "Pass", category := "MEMBERSHIP", amount := 5,
    customer := "b", sourceFile := "t.csv" }

/-- C3 counterexample: on a table holding one parseable and one unparseable
date, the date conversion raises instead of dropping the bad row: the call
uses the default errors=raise policy, so no table is produced at all. -/
theorem to_datetime_raises_counterexample_c3 :
    to_datetime_dayfirst [c3GoodRaw, c3BadRaw] =
      Except.error "Unknown datetime string format" ∧
    (to_datetime_dayfirst [c3GoodRaw, c3BadRaw]).toOption = none :=
  ⟨rfl, rfl⟩

/-- C3 amended: the transaction date column is parsed with the day-first
convention, but a row whose date fails to parse is not dropped: the
conversion raises an exception (pandas default errors=raise). It succeeds
exactly when every row's date parses, and then every row is retained. -/
theorem to_datetime_amended_c3 (rows : List RawTxn) :
    ((∃ out, to_datetime_dayfirst rows = Except.ok out) ↔
      ∀ r ∈ rows, r.rawDate.isSome = true) ∧
    (∀ out, to_datetime_dayfirst rows = Except.ok out → out.length = rows.length) := by
  induction rows with
  | nil =>
    constructor
    · simp [to_datetime_dayfirst]
    · intro out h
      simp [to_datetime_dayfirst] at h
      simp [h]
  | cons r rs ih =>
    cases hd : r.rawDate with
    | none =>
      constructor
      · simp [to_datetime_dayfirst, hd]
      · intro out h
        simp [to_datetime_dayfirst, hd] at h
    | some d =>
      cases hrec : to_datetime_dayfirst rs with
      | ok ts =>
        constructor
        · simp only [to_datetime_dayfirst, hd, hrec]
          constructor
          · intro _ r2 hr2
            rcases List.mem_cons.mp hr2 with h2 | h2
            · rw [h2, hd]; rfl
            · exact (ih.1.mp ⟨ts, hrec⟩) r2 h2
          · intro _
            exact ⟨withDate r d :: ts, rfl⟩
        · intro out h
          simp only [to_datetime_dayfirst, hd, hrec, Except.ok.injEq] at h
          rw [← h]
          simp [ih.2 ts hrec]
      | error e =>
        constructor
        · simp only [to_datetime_dayfirst, hd, hrec]
          constructor
          · intro ⟨out, hout⟩
            exact absurd hout (by simp)
          · intro hall
            have : ∃ out, to_datetime_dayfirst rs = Except.ok out :=
              ih.1.mpr (fun r2 hr2 => hall r2 (List.mem_cons_of_mem r hr2))
            rw [hrec] at this
            obtain ⟨out, hout⟩ := this
            exact absurd hout (by simp)
        · intro out h
          simp only [to_datetime_dayfirst, hd, hrec] at h
          exact absurd h (by simp)

theorem to_datetime_amended_c3_witness :
    (∃ out, to_datetime_dayfirst [c3GoodRaw] = Except.ok out) ∧
    ([withDate c3GoodRaw (daysFromCivil 2025 7 5)]).length = [c3GoodRaw].length :=
  ⟨(to_datetime_amended_c3 [c3GoodRaw]).1.mpr (by simp [c3GoodRaw]),
   (to_datetime_amended_c3 [c3GoodRaw]).2 [withDate c3GoodRaw (daysFromCivil 2025 7 5)] rfl⟩

/-- One row of the per-customer table the CAC loop reads (customer_analysis):
lifetime value, transaction count, average spend, first and last purchase
dates and monthly purchase frequency. -/
structure CustomerRow where
  customer : String
  ltv : ℚ
  transactions : Nat
  avgSpend : ℚ
  firstPurchase : Int
  lastPurchase : Int
  purchaseFrequency : ℚ
deriving Repr, DecidableEq

/-- An explicit campaign window: start and end dates, spend and name. -/
structure Period where
  start_date : Int
  end_date : Int
  spend : ℚ
  campaign_name : String
deriving Repr, DecidableEq

/-- One row of the CAC analysis table; payback_months of none encodes the
float infinity the source stores when monthly value is zero. -/
structure CacRow where
  campaign : String
  marketing_spend : ℚ
  new_customers : Nat
  cac : ℚ
  avg_new_customer_ltv : ℚ
  ltv_cac_ratio : ℚ
  payback_months : Option ℚ
deriving Repr, DecidableEq

/-- Arithmetic mean of a list of values (pandas Series.mean); every use below
is guarded by a positive length, as in the source. -/
def listMean (l : List ℚ) : ℚ := l.sum / l.length

/-- Customers whose first purchase falls inside the window, both ends
inclusive (lines 624-627). -/
def acquiredIn (p : Period) (customers : List CustomerRow) : List CustomerRow :=
  customers.filter (fun c =>
    decide (p.start_date ≤ c.firstPurchase ∧ c.firstPurchase ≤ p.end_date))

/-- Embedding of one iteration of the CAC loop (lines 616-651): acquired
count, CAC with the zero-acquired branch yielding 0, mean LTV of the cohort,
LTV:CAC ratio with zero-CAC guard, and payback months with the infinite
sentinel when monthly value is zero. -/
def cacRowFor (customers : List CustomerRow) (p : Period) : CacRow :=
  let newCust := acquiredIn p customers
  let n := newCust.length
  let cac := if 0 < n then p.spend / n else 0
  let newLtv := if 0 < n then listMean (newCust.map (·.ltv)) else 0
  let ratio := if 0 < cac then newLtv / cac else 0
  let avgMonthlySpend := if 0 < n then listMean (newCust.map (·.avgSpend)) else 0
  let avgFreq := if 0 < n then listMean (newCust.map (·.purchaseFrequency)) else 0
  let monthlyValue := avgMonthlySpend * avgFreq
  { campaign := p.campaign_name
    marketing_spend := p.spend
    new_customers := n
    cac := cac
    avg_new_customer_ltv := newLtv
    ltv_cac_ratio := ratio
    payback_months := if 0 < monthlyValue then some (cac / monthlyValue) else none }

/-- Embedding of the whole CAC loop: one CacRow per explicit campaign window,
in order (the loop only processes periods carrying start and end dates). -/
def cac_analysis (customers : List CustomerRow) (periods : List Period) : List CacRow :=
  periods.map (cacRowFor customers)

/-- A customer whose first purchase lies outside the window of c4Window. -/
def c4FarCustomers : List CustomerRow :=
  [{ customer := "z", ltv := 40, transactions := 1, avgSpend := 40,
     firstPurchase := 500, lastPurchase := 500, purchaseFrequency := 1 }]

def c4Window : Period :=
  { start_date := 0, end_date := 10, spend := 100, campaign_name := "Camp" }

/-- C4 counterexample: a campaign window with spend 100 in which no customer
made a first purchase yields a CAC row whose cac value is the plain number 0,
indistinguishable from a true zero cost; there is no distinct undefined flag,
contradicting the claim. -/
theorem cac_zero_acquired_counterexample_c4 :
    (cac_analysis c4FarCustomers [c4Window]).map
      (fun r => (r.new_customers, r.cac)) = [(0, 0)] := by
  simp [cac_analysis, cacRowFor, acquiredIn, c4FarCustomers, c4Window, listMean]

/-- The CAC scenario of the specification: five customers whose first
purchases split two into the first window and three into the second. -/
def c4Customers : List CustomerRow :=
  [{ customer := "a", ltv := 30, transactions := 1, avgSpend := 30,
     firstPurchase := 2, lastPurchase := 2, purchaseFrequency := 1 },
   { customer := "b", ltv := 60, transactions := 2, avgSpend := 30,
     firstPurchase := 5, lastPurchase := 35, purchaseFrequency := 1 },
   { customer := "c", ltv := 90, transactions := 3, avgSpend := 30,
     firstPurchase := 22, lastPurchase := 60, purchaseFrequency := 1 },
   { customer := "d", ltv := 20, transactions := 1, avgSpend := 20,
     firstPurchase := 25, lastPurchase := 25, purchaseFrequency := 1 },
   { customer := "e", ltv := 50, transactions := 2, avgSpend := 25,
     firstPurchase := 28, lastPurchase := 70, purchaseFrequency := 1 }]

def c4Periods : List Period :=
  [{ start_date := 0, end_date := 10, spend := 100, campaign_name := "W1" },
   { start_date := 20, end_date := 30, spend := 200, campaign_name := "W2" }]

/-- C4 amended: CAC per campaign window counts customers whose first purchase
date falls inside the window, both ends inclusive, and CAC is window spend
divided by the acquired count; when zero customers are acquired the code
reports the number 0 rather than a distinct undefined flag. On the scenario
with spends 100 and 200 and first purchases split two and three, the CACs are
50 and 200/3 (about 66.67). -/
theorem cac_scenario_amended_c4 :
    ((cac_analysis c4Customers c4Periods).map
      (fun r => (r.new_customers, r.cac)) = [(2, 50), (3, 200 / 3)]) ∧
    (∀ (customers : List CustomerRow) (p : Period), acquiredIn p customers = [] →
      (cacRowFor customers p).new_customers = 0 ∧ (cacRowFor customers p).cac = 0) := by
  constructor
  · simp [cac_analysis, cacRowFor, acquiredIn, c4Customers, c4Periods, listMean]
    norm_num
  · intro customers p h
    simp [cacRowFor, h]

theorem cac_scenario_amended_c4_witness :
    (cacRowFor c4FarCustomers c4Window).new_customers = 0 ∧
    (cacRowFor c4FarCustomers c4Window).cac = 0 :=
  cac_scenario_amended_c4.2 c4FarCustomers c4Window (by decide)

/-- C10: whenever the promotion window spans 30 days or more, the comparison
window, which starts exactly 30 days before the promotion start and has the
same duration, overlaps the promotion window, and every transaction dated in
the overlap belongs to both the treatment set and the comparison set of the
same analysis, so it is counted in both sides of the lift computation. -/
theorem comparison_overlap_c10 (s e : Int) (h : 30 ≤ e - s) :
    (comparison_start s ≤ e ∧ s ≤ comparison_end s e) ∧
    (∀ (df : TxnTable) (t : Txn), t ∈ df.rows →
      s ≤ t.date → t.date ≤ comparison_end s e →
      t ∈ promotionData df s e ∧ t ∈ comparisonData df s e) := by
  constructor
  · simp only [comparison_end, comparison_start]
    omega
  · intro df t ht h1 h2
    simp only [comparison_end, comparison_start] at h2
    constructor
    · rw [promotionData, List.mem_filter]
      refine ⟨ht, ?_⟩
      simp only [decide_eq_true_eq]
      omega
    · rw [comparisonData, List.mem_filter]
      refine ⟨ht, ?_⟩
      simp only [decide_eq_true_eq, comparison_end, comparison_start]
      omega

def c10Txn : Txn :=
  { date := 5, item := "Pass", category := "MEMBERSHIP", amount := 10,
    customer := "a", sourceFile := "f.csv" }

def c10Table : TxnTable := { rows := [c10Txn], hasSoldTo := true }

theorem comparison_overlap_c10_witness :
    c10Txn ∈ promotionData c10Table 0 40 ∧ c10Txn ∈ comparisonData c10Table 0 40 :=
  (comparison_overlap_c10 0 40 (by decide)).2 c10Table c10Txn
    (by decide) (by decide) (by decide)

end FranchiseAnalytics
